import Mathlib

/-!
Shallow embedding of the stoic-mentor VAD backend
(`backend/audio_analysis_service.py` and `backend/socket_vad_service.py`,
plus the socket handlers of `backend/api.py`).

Real arithmetic of the Python source is modelled over `ℚ`.  The only
operation that leaves `ℚ` is the square root (`statistics.stdev`,
`np.sqrt`); every definition that needs it is parametrized by a function
`sq : ℚ → ℚ` standing for `math.sqrt`/`np.sqrt` on the exact rational
inputs.  Concrete evaluations instantiate `sq` with `ratSqrt`, which is
exact on rationals that are squares of rationals (all concrete inputs
used below have square variances, typically `0`).
-/

attribute [local semireducible] Rat.add Rat.mul Rat.sub Rat.inv Rat.ofScientific

namespace StoicVAD

/-- Python booleans used in arithmetic (`True = 1`, `False = 0`),
as in the ensemble score of `socket_vad_service.py`. -/
def b2q (b : Bool) : ℚ := if b then 1 else 0

/-- Model of `statistics.mean` (the guarded call sites always pass
nonempty lists). -/
def listMean (l : List ℚ) : ℚ := l.sum / l.length

/-- Sample variance with Bessel correction, the square of
`statistics.stdev`. -/
def sampleVar (l : List ℚ) : ℚ :=
  (l.map (fun x => (x - listMean l) ^ 2)).sum / ((l.length : ℚ) - 1)

/-- Model of `statistics.stdev`, parametrized by the square root. -/
def stdev (sq : ℚ → ℚ) (l : List ℚ) : ℚ := sq (sampleVar l)

/-- Largest `k ≤ bound` with `k * k ≤ n` (structurally recursive so
that concrete evaluations reduce in the kernel). -/
def isqrtAux (n : ℕ) : ℕ → ℕ
  | 0 => 0
  | k + 1 => if (k + 1) * (k + 1) ≤ n then k + 1 else isqrtAux n k

/-- Integer square root by downward search. -/
def isqrt (n : ℕ) : ℕ := isqrtAux n n

/-- Computable rational square root used to instantiate the `sq`
parameter at concrete inputs: exact whenever the argument is the square
of a rational (a reduced square rational has a square numerator and a
square denominator). -/
def ratSqrt (q : ℚ) : ℚ := (isqrt q.num.toNat : ℚ) / (isqrt q.den : ℚ)

/-- The last `n` entries of a list, Python's `l[-n:]`. -/
def lastN (n : ℕ) (l : List ℚ) : List ℚ := l.drop (l.length - n)

/-- Configuration of `AudioAnalysisService` (`DEFAULT_CONFIG` keys;
the `debug` flag only gates prints and is omitted). -/
structure AASConfig where
  initial_sensitivity_factor : ℚ
  calibration_duration_ms : ℤ
  recalibration_interval_ms : ℤ
  silence_duration_for_recal_ms : ℤ
  max_sample_history : ℕ
  smoothing_factor : ℚ
  consecutive_frames_threshold : ℕ
deriving DecidableEq, Repr

/-- `DEFAULT_CONFIG` of `audio_analysis_service.py`. -/
def defaultAASConfig : AASConfig where
  initial_sensitivity_factor := 1.5
  calibration_duration_ms := 2000
  recalibration_interval_ms := 5000
  silence_duration_for_recal_ms := 2000
  max_sample_history := 50
  smoothing_factor := 0.1
  consecutive_frames_threshold := 2

/-- Mutable state of one `AudioAnalysisService` instance. -/
structure AASState where
  config : AASConfig
  samples : List ℚ
  noise_floor : ℚ
  std_dev : ℚ
  sensitivity_factor : ℚ
  last_calibration_time : ℤ
  calibration_complete : Bool
  is_calibrating : Bool
  last_is_speech : Bool
  consecutive_speech_frames : ℕ
  consecutive_silence_frames : ℕ
  last_speech_time : ℤ
  last_silence_time : ℤ
deriving DecidableEq, Repr

/-- Event tags emitted by the service (`AudioAnalysisEvent`). -/
inductive AAEvent
  | calibrationStart
  | calibrationComplete
  | speechStart
  | speechEnd
  | thresholdChanged
deriving DecidableEq, Repr

/-- `_start_calibration`: reset the sample buffer and timestamps, emit
`calibration-start`.  `now` stands for `int(time.time() * 1000)`. -/
def startCalibration (s : AASState) (now : ℤ) : AASState × List AAEvent :=
  ({ s with is_calibrating := true, calibration_complete := false,
            samples := [], last_calibration_time := now },
   [AAEvent.calibrationStart])

/-- `__init__` followed by the `_start_calibration` it performs.
Events are dropped: no listener can be registered before `__init__`
returns. -/
def AASState.init (cfg : AASConfig) (now : ℤ) : AASState :=
  (startCalibration
    { config := cfg
      samples := []
      noise_floor := 0
      std_dev := 0
      sensitivity_factor := cfg.initial_sensitivity_factor
      last_calibration_time := 0
      calibration_complete := false
      is_calibrating := true
      last_is_speech := false
      consecutive_speech_frames := 0
      consecutive_silence_frames := 0
      last_speech_time := 0
      last_silence_time := 0 } now).1

/-- `_complete_calibration`. -/
def completeCalibration (sq : ℚ → ℚ) (s : AASState) : AASState × List AAEvent :=
  let s1 :=
    if 5 ≤ s.samples.length then
      { s with noise_floor := listMean s.samples,
               std_dev := if 1 < s.samples.length then stdev sq s.samples else 0.01 }
    else
      { s with noise_floor := 0.02, std_dev := 0.01 }
  ({ s1 with is_calibrating := false, calibration_complete := true },
   [AAEvent.calibrationComplete])

/-- `get_current_threshold`. -/
def currentThreshold (s : AASState) : ℚ :=
  s.noise_floor + s.std_dev * s.sensitivity_factor

/-- The dictionary returned by `add_audio_sample` (the `profile` entry,
a read-only snapshot of the state, is omitted). -/
structure SampleResult where
  level : ℚ
  threshold : ℚ
  is_speech : Bool
  timestamp : ℤ
deriving DecidableEq, Repr

/-- `_recalibrate_from_recent_silence`.  `now` stands for the
`int(time.time() * 1000)` read for `_last_calibration_time`. -/
def recalibrateFromRecentSilence (sq : ℚ → ℚ) (s : AASState) (now : ℤ) :
    AASState × List AAEvent :=
  let recent := lastN (min 20 s.samples.length) s.samples
  if 5 ≤ recent.length then
    ({ s with noise_floor := listMean recent,
              std_dev := if 1 < recent.length then stdev sq recent else 0.01,
              last_calibration_time := now },
     [AAEvent.thresholdChanged])
  else (s, [])

/-- Coefficient of variation over a sample window, as computed inline in
`_adjust_sensitivity_factor` (lines 257-262): sample stdev over mean,
`0` when the mean is not positive. -/
def variationCoeff (sq : ℚ → ℚ) (l : List ℚ) : ℚ :=
  let m := listMean l
  let sd := if 1 < l.length then stdev sq l else 0.01
  if 0 < m then sd / m else 0

/-- `_adjust_sensitivity_factor`. -/
def adjustSensitivity (sq : ℚ → ℚ) (s : AASState) : AASState :=
  if 10 ≤ s.samples.length then
    let cv := variationCoeff sq (lastN 10 s.samples)
    if 0.5 < cv then
      { s with sensitivity_factor := min 2.0 (s.sensitivity_factor + 0.05) }
    else if cv < 0.2 ∧ 1.3 < s.sensitivity_factor then
      { s with sensitivity_factor := max 1.2 (s.sensitivity_factor - 0.05) }
    else s
  else s

/-- Lines 148-151 of `add_audio_sample`: append to the bounded history
(`pop(0)` drops the oldest sample). -/
def appendSampleBounded (s : AASState) (level : ℚ) : AASState :=
  let s1 := { s with samples := s.samples ++ [level] }
  if s1.config.max_sample_history < s1.samples.length then
    { s1 with samples := s1.samples.tail }
  else s1

/-- Lines 159-167 of `add_audio_sample`: consecutive-frame tracking. -/
def trackConsecutive (s : AASState) (is_speech : Bool) (timestamp : ℤ) : AASState :=
  if is_speech then
    { s with consecutive_speech_frames := s.consecutive_speech_frames + 1,
             consecutive_silence_frames := 0,
             last_speech_time := timestamp }
  else
    { s with consecutive_speech_frames := 0,
             consecutive_silence_frames := s.consecutive_silence_frames + 1,
             last_silence_time := timestamp }

/-- Lines 205-220 of `add_audio_sample`: exponential-moving-average
noise-floor tracking for quiet samples, with the periodic recomputation
of `std_dev` from recent below-threshold samples. -/
def floorTracking (sq : ℚ → ℚ) (s : AASState) (level threshold : ℚ) :
    AASState × List AAEvent :=
  if level < s.noise_floor * 1.5 then
    let s4 := { s with noise_floor :=
      s.config.smoothing_factor * level +
        (1 - s.config.smoothing_factor) * s.noise_floor }
    let s4 :=
      if 10 < s4.samples.length then
        let silent := (lastN 10 s4.samples).filter (fun x => decide (x < threshold))
        if 5 ≤ silent.length then
          { s4 with std_dev := if 1 < silent.length then stdev sq silent else s4.std_dev }
        else s4
      else s4
    (s4, [AAEvent.thresholdChanged])
  else (s, [])

/-- `add_audio_sample`: returns the successor state, the result
dictionary, and the events emitted during the call, in order. -/
def addAudioSample (sq : ℚ → ℚ) (s : AASState) (level : ℚ) (timestamp : ℤ) :
    AASState × SampleResult × List AAEvent :=
  if s.is_calibrating then
    -- calibration phase: collect the sample, maybe complete, return early
    let s1 := { s with samples := s.samples ++ [level] }
    let c :=
      if s1.config.calibration_duration_ms ≤ timestamp - s1.last_calibration_time then
        completeCalibration sq s1
      else (s1, [])
    (c.1, ⟨level, 0, false, timestamp⟩, c.2)
  else
    let s1 := appendSampleBounded s level
    let threshold := currentThreshold s1
    let is_speech : Bool := decide (threshold < level)
    let s2 := trackConsecutive s1 is_speech timestamp
    let confirmed : Bool :=
      decide (s2.config.consecutive_frames_threshold ≤ s2.consecutive_speech_frames)
    if confirmed ∧ ¬s2.last_is_speech then
      ({ s2 with last_is_speech := true },
       ⟨level, threshold, true, timestamp⟩, [AAEvent.speechStart])
    else if ¬is_speech ∧ s2.last_is_speech ∧
            s2.config.consecutive_frames_threshold ≤ s2.consecutive_silence_frames then
      ({ s2 with last_is_speech := false },
       ⟨level, threshold, false, timestamp⟩, [AAEvent.speechEnd])
    else
      let silence_duration := timestamp - s2.last_silence_time
      let r :=
        if ¬is_speech ∧ s2.config.silence_duration_for_recal_ms < silence_duration ∧
           s2.config.recalibration_interval_ms < timestamp - s2.last_calibration_time then
          recalibrateFromRecentSilence sq s2 timestamp
        else (s2, [])
      let e := floorTracking sq r.1 level threshold
      let s5 := adjustSensitivity sq e.1
      (s5, ⟨level, threshold, s5.last_is_speech, timestamp⟩, r.2 ++ e.2)

/-- Per-field partial update of `AASConfig`, the `config` dictionary
passed to `update_config` (last-writer-wins merge). -/
structure AASConfigPatch where
  initial_sensitivity_factor : Option ℚ := none
  calibration_duration_ms : Option ℤ := none
  recalibration_interval_ms : Option ℤ := none
  silence_duration_for_recal_ms : Option ℤ := none
  max_sample_history : Option ℕ := none
  smoothing_factor : Option ℚ := none
  consecutive_frames_threshold : Option ℕ := none
deriving DecidableEq, Repr

/-- Dictionary merge `self._config.update(config)`. -/
def AASConfig.merge (c : AASConfig) (p : AASConfigPatch) : AASConfig where
  initial_sensitivity_factor :=
    p.initial_sensitivity_factor.getD c.initial_sensitivity_factor
  calibration_duration_ms := p.calibration_duration_ms.getD c.calibration_duration_ms
  recalibration_interval_ms := p.recalibration_interval_ms.getD c.recalibration_interval_ms
  silence_duration_for_recal_ms :=
    p.silence_duration_for_recal_ms.getD c.silence_duration_for_recal_ms
  max_sample_history := p.max_sample_history.getD c.max_sample_history
  smoothing_factor := p.smoothing_factor.getD c.smoothing_factor
  consecutive_frames_threshold :=
    p.consecutive_frames_threshold.getD c.consecutive_frames_threshold

/-- `update_config`. -/
def updateConfig (s : AASState) (p : AASConfigPatch) : AASState :=
  { s with config := s.config.merge p }

/-- `force_recalibration` (an alias of `_start_calibration`). -/
def forceRecalibration (s : AASState) (now : ℤ) : AASState :=
  (startCalibration s now).1

/-- One externally triggerable operation on an `AudioAnalysisService`. -/
inductive AASOp
  | sample (level : ℚ) (timestamp : ℤ)
  | recal (now : ℤ)
  | cfg (p : AASConfigPatch)
deriving Repr

/-- Apply one operation to the state. -/
def applyOp (sq : ℚ → ℚ) (s : AASState) : AASOp → AASState
  | AASOp.sample l t => (addAudioSample sq s l t).1
  | AASOp.recal now => forceRecalibration s now
  | AASOp.cfg p => updateConfig s p

/-- Run a sequence of operations. -/
def runOps (sq : ℚ → ℚ) (s : AASState) (ops : List AASOp) : AASState :=
  ops.foldl (applyOp sq) s

/-! Socket VAD layer (`socket_vad_service.py`).  PCM audio is modelled
at 16-bit-sample granularity: a decoded byte buffer of length `2n`
becomes a list of `n` signed samples, so `frame_size` bytes correspond
to `frame_size / 2` samples and the byte-length equality check of
`_process_frame` becomes `2 * length = frame_size`. -/

/-- Configuration of the socket VAD layer (`DEFAULT_SOCKET_VAD_CONFIG`;
`debug` only gates prints and is omitted). -/
structure SVConfig where
  sample_rate : ℕ
  frame_duration_ms : ℕ
  aggressiveness : ℕ
  use_webrtc_vad : Bool
  use_rms_vad : Bool
  webrtc_weight : ℚ
  rms_weight : ℚ
  session_timeout_ms : ℤ
  buffer_size : ℕ
deriving DecidableEq, Repr

/-- `DEFAULT_SOCKET_VAD_CONFIG`. -/
def defaultSVConfig : SVConfig where
  sample_rate := 16000
  frame_duration_ms := 30
  aggressiveness := 2
  use_webrtc_vad := true
  use_rms_vad := true
  webrtc_weight := 0.7
  rms_weight := 0.3
  session_timeout_ms := 300000
  buffer_size := 1024

/-- The `AudioFrame` dataclass (`data` as 16-bit samples). -/
structure AudioFrame where
  data : List ℤ
  rms_level : ℚ
  timestamp : ℤ
  is_speech_rms : Bool
  is_speech_webrtc : Bool
  is_speech_ensemble : Bool
deriving DecidableEq, Repr

/-- State of one `UserSession`.  `has_webrtc_vad` models
`self.webrtc_vad is not None`; the detector itself is an external
capability passed separately as an oracle. -/
structure SessionState where
  session_id : String
  created_at : ℤ
  last_activity : ℤ
  config : SVConfig
  audio_service : AASState
  has_webrtc_vad : Bool
  is_speaking : Bool
  speech_start_time : ℤ
  speech_end_time : ℤ
  frames : List AudioFrame
  max_frames : ℕ
  total_frames : ℕ
  speech_frames : ℕ
  frame_size : ℕ
deriving DecidableEq, Repr

/-- `UserSession.__init__` with an already-merged full configuration
(the registry always passes its complete config dictionary).  The inner
`AudioAnalysisService` is built with only the `debug` key overridden,
hence the default analysis config. -/
def SessionState.init (sid : String) (cfg : SVConfig) (now : ℤ) : SessionState where
  session_id := sid
  created_at := now
  last_activity := now
  config := cfg
  audio_service := AASState.init defaultAASConfig now
  has_webrtc_vad := cfg.use_webrtc_vad
  is_speaking := false
  speech_start_time := 0
  speech_end_time := 0
  frames := []
  max_frames := 100
  total_frames := 0
  speech_frames := 0
  frame_size := cfg.sample_rate * cfg.frame_duration_ms * 2 / 1000

/-- RMS level of a PCM frame
(`np.sqrt(np.mean(pcm ** 2)) / 32768.0`). -/
def rmsLevel (sq : ℚ → ℚ) (frame : List ℤ) : ℚ :=
  sq ((frame.map (fun x => (x : ℚ) ^ 2)).sum / frame.length) / 32768

/-- The dictionary returned by `_process_frame`. -/
structure FrameResult where
  is_speech : Bool
  rms_level : ℚ
  threshold : ℚ
  timestamp : ℤ
deriving DecidableEq, Repr

/-- Lines 179-216 of `_process_frame`: the `AudioFrame` record built
for one frame — RMS level, the RMS-based verdict from the analysis
service, the WebRTC verdict (`False` when the detector is absent or the
frame size does not match exactly), and the ensemble combination.
The verdicts only read fields of `s` that the preceding counter and
analysis-service updates of `_process_frame` do not touch. -/
def frameVerdicts (sq : ℚ → ℚ) (wv : List ℤ → ℕ → Bool) (s : SessionState)
    (frame : List ℤ) (timestamp : ℤ) : AudioFrame :=
  let rms := rmsLevel sq frame
  let is_speech_rms := (addAudioSample sq s.audio_service rms timestamp).2.1.is_speech
  let is_speech_webrtc : Bool :=
    if s.has_webrtc_vad ∧ 2 * frame.length = s.frame_size then
      wv frame s.config.sample_rate
    else false
  let is_speech_ensemble : Bool :=
    if s.config.use_webrtc_vad ∧ s.config.use_rms_vad then
      decide ((0.5 : ℚ) <
        b2q is_speech_webrtc * s.config.webrtc_weight +
          b2q is_speech_rms * s.config.rms_weight)
    else if s.config.use_rms_vad then is_speech_rms else is_speech_webrtc
  ⟨frame, rms, timestamp, is_speech_rms, is_speech_webrtc, is_speech_ensemble⟩

/-- `_process_frame`.  `wv` is the external WebRTC VAD capability
`is_speech(frame_bytes, sample_rate)`. -/
def processFrame (sq : ℚ → ℚ) (wv : List ℤ → ℕ → Bool) (s : SessionState)
    (frame : List ℤ) (timestamp : ℤ) : SessionState × FrameResult :=
  let ar := addAudioSample sq s.audio_service (rmsLevel sq frame) timestamp
  let fr := frameVerdicts sq wv s frame timestamp
  let s1 := { s with total_frames := s.total_frames + 1, audio_service := ar.1 }
  let s2 := { s1 with frames := s1.frames ++ [fr] }
  let s3 :=
    if s2.max_frames < s2.frames.length then { s2 with frames := s2.frames.tail }
    else s2
  let s4 :=
    if fr.is_speech_ensemble then { s3 with speech_frames := s3.speech_frames + 1 }
    else s3
  (s4, ⟨fr.is_speech_ensemble, fr.rms_level, ar.2.1.threshold, timestamp⟩)

/-- Slice a decoded sample buffer into consecutive full frames of `n`
samples, dropping a trailing partial frame
(the `range(0, len, frame_size)` loop of `process_audio_chunk`). -/
def chunkFrames (n : ℕ) (l : List ℤ) : List (List ℤ) :=
  if _h : 0 < n ∧ n ≤ l.length then
    l.take n :: chunkFrames n (l.drop n)
  else []
termination_by l.length
decreasing_by
  simp only [List.length_drop]
  omega

/-- The chunk-level result dictionary of `process_audio_chunk`. -/
inductive ChunkResult
  | err
  | speechStart (timestamp : ℤ) (confidence : ℚ)
  | speechEnd (timestamp : ℤ) (duration_ms : ℤ)
  | vadUpdate (timestamp : ℤ) (is_speaking : Bool)
deriving DecidableEq, Repr

/-- `process_audio_chunk`.  `dec` is `base64.b64decode` (already mapped
to 16-bit samples), `none` standing for a raised decode exception; `now`
is `int(time.time() * 1000)`.  Note `update_activity()` runs before the
decode attempt. -/
def processAudioChunk (sq : ℚ → ℚ) (wv : List ℤ → ℕ → Bool)
    (dec : String → Option (List ℤ)) (s : SessionState) (payload : String)
    (now : ℤ) : SessionState × ChunkResult :=
  let s0 := { s with last_activity := now }
  match dec payload with
  | none => (s0, ChunkResult.err)
  | some audio =>
    let fs := chunkFrames (s0.frame_size / 2) audio
    let step := fun (acc : SessionState × List FrameResult) (f : List ℤ) =>
      let r := processFrame sq wv acc.1 f now
      (r.1, acc.2 ++ [r.2])
    let p := fs.foldl step (s0, [])
    let s1 := p.1
    let results := p.2
    if results.length ≠ 0 then
      let speech := (results.filter (fun r => r.is_speech)).length
      let ratio := (speech : ℚ) / results.length
      let newSpeaking : Bool := decide ((0.5 : ℚ) < ratio)
      if newSpeaking ∧ ¬s1.is_speaking then
        ({ s1 with is_speaking := true, speech_start_time := now },
         ChunkResult.speechStart now ratio)
      else if ¬newSpeaking ∧ s1.is_speaking then
        ({ s1 with is_speaking := false, speech_end_time := now },
         ChunkResult.speechEnd now (now - s1.speech_start_time))
      else (s1, ChunkResult.vadUpdate now s1.is_speaking)
    else (s1, ChunkResult.vadUpdate now s1.is_speaking)

/-- Partial update of `SVConfig` plus the nested `rms_vad_config`
dictionary forwarded to the analysis service. -/
structure SVConfigPatch where
  sample_rate : Option ℕ := none
  frame_duration_ms : Option ℕ := none
  aggressiveness : Option ℕ := none
  use_webrtc_vad : Option Bool := none
  use_rms_vad : Option Bool := none
  webrtc_weight : Option ℚ := none
  rms_weight : Option ℚ := none
  session_timeout_ms : Option ℤ := none
  buffer_size : Option ℕ := none
  rms_vad_config : Option AASConfigPatch := none
deriving DecidableEq, Repr

/-- Dictionary merge `self.config.update(config)`. -/
def SVConfig.merge (c : SVConfig) (p : SVConfigPatch) : SVConfig where
  sample_rate := p.sample_rate.getD c.sample_rate
  frame_duration_ms := p.frame_duration_ms.getD c.frame_duration_ms
  aggressiveness := p.aggressiveness.getD c.aggressiveness
  use_webrtc_vad := p.use_webrtc_vad.getD c.use_webrtc_vad
  use_rms_vad := p.use_rms_vad.getD c.use_rms_vad
  webrtc_weight := p.webrtc_weight.getD c.webrtc_weight
  rms_weight := p.rms_weight.getD c.rms_weight
  session_timeout_ms := p.session_timeout_ms.getD c.session_timeout_ms
  buffer_size := p.buffer_size.getD c.buffer_size

/-- `UserSession.update_vad_config`: merge, reinstantiate or drop the
WebRTC detector when its toggles changed, forward a nested
`rms_vad_config` to the analysis service. -/
def updateVadConfig (s : SessionState) (p : SVConfigPatch) : SessionState :=
  let newCfg := s.config.merge p
  let changed := newCfg.use_webrtc_vad ≠ s.config.use_webrtc_vad ∨
    newCfg.aggressiveness ≠ s.config.aggressiveness
  let hasVad := if changed then newCfg.use_webrtc_vad else s.has_webrtc_vad
  let svc :=
    match p.rms_vad_config with
    | some ap => updateConfig s.audio_service ap
    | none => s.audio_service
  { s with config := newCfg, has_webrtc_vad := hasVad, audio_service := svc }

/-- The session registry `self.sessions`, as an association list keyed
by session id. -/
abbrev Registry := List (String × SessionState)

/-- `self.sessions.get(session_id)` (`SocketVADService.get_session`). -/
def lookupSession (r : Registry) (sid : String) : Option SessionState :=
  ((List.find? (fun q => q.1 == sid) r).map (fun q => q.2))

/-- Number of registered sessions (`get_session_count`). -/
def sessionCount (r : Registry) : ℕ := List.length r

/-- `SocketVADService.get_or_create_session` for an explicitly given id:
look the session up, lazily constructing and registering it when
absent. -/
def getOrCreateSession (r : Registry) (sid : String) (cfg : SVConfig) (now : ℤ) :
    Registry × SessionState :=
  match lookupSession r sid with
  | some s => (r, s)
  | none => (r ++ [(sid, SessionState.init sid cfg now)], SessionState.init sid cfg now)

/-- Store back a mutated session object under its id. -/
def storeSession (r : Registry) (sid : String) (s : SessionState) : Registry :=
  List.map (fun q => if q.1 == sid then (sid, s) else q) r

/-- `SocketVADService.process_audio` (the `process` interface
operation): resolve or lazily create the session, then delegate the
chunk to it. -/
def processAudioRegistry (sq : ℚ → ℚ) (wv : List ℤ → ℕ → Bool)
    (dec : String → Option (List ℤ)) (r : Registry) (sid : String)
    (cfg : SVConfig) (payload : String) (now : ℤ) : Registry × ChunkResult :=
  let g := getOrCreateSession r sid cfg now
  let p := processAudioChunk sq wv dec g.2 payload now
  (storeSession g.1 sid p.1, p.2)

/-- Result of the `update_vad_config` socket handler in `api.py`. -/
inductive CfgUpdateResult
  | missingArgs
  | sessionNotFound
  | updated (cfg : SVConfig)
deriving DecidableEq, Repr

/-- `handle_update_vad_config` of `api.py`: reject missing arguments,
report unknown ids as an error via `get_session` (which never creates),
otherwise merge the configuration into the session. -/
def handleUpdateVadConfig (r : Registry) (sid : Option String)
    (cfg : Option SVConfigPatch) : Registry × CfgUpdateResult :=
  match sid, cfg with
  | some sid, some p =>
    match lookupSession r sid with
    | none => (r, CfgUpdateResult.sessionNotFound)
    | some s =>
      let s2 := updateVadConfig s p
      (storeSession r sid s2, CfgUpdateResult.updated s2.config)
  | _, _ => (r, CfgUpdateResult.missingArgs)

/-! Theorems.  First a few bookkeeping lemmas about the stages of
`add_audio_sample`: which state fields each stage can touch, and which
events it can emit. -/

theorem appendSampleBounded_fields (s : AASState) (level : ℚ) :
    (appendSampleBounded s level).config = s.config ∧
    (appendSampleBounded s level).noise_floor = s.noise_floor ∧
    (appendSampleBounded s level).std_dev = s.std_dev ∧
    (appendSampleBounded s level).sensitivity_factor = s.sensitivity_factor ∧
    (appendSampleBounded s level).is_calibrating = s.is_calibrating ∧
    (appendSampleBounded s level).last_is_speech = s.last_is_speech ∧
    (appendSampleBounded s level).consecutive_speech_frames = s.consecutive_speech_frames ∧
    (appendSampleBounded s level).consecutive_silence_frames = s.consecutive_silence_frames ∧
    (appendSampleBounded s level).last_silence_time = s.last_silence_time ∧
    (appendSampleBounded s level).last_calibration_time = s.last_calibration_time := by
  unfold appendSampleBounded
  dsimp only
  split <;> exact ⟨rfl, rfl, rfl, rfl, rfl, rfl, rfl, rfl, rfl, rfl⟩

theorem currentThreshold_appendSampleBounded (s : AASState) (level : ℚ) :
    currentThreshold (appendSampleBounded s level) = currentThreshold s := by
  unfold currentThreshold
  rw [(appendSampleBounded_fields s level).2.1,
    (appendSampleBounded_fields s level).2.2.1,
    (appendSampleBounded_fields s level).2.2.2.1]

theorem trackConsecutive_fields (s : AASState) (b : Bool) (t : ℤ) :
    (trackConsecutive s b t).config = s.config ∧
    (trackConsecutive s b t).samples = s.samples ∧
    (trackConsecutive s b t).noise_floor = s.noise_floor ∧
    (trackConsecutive s b t).std_dev = s.std_dev ∧
    (trackConsecutive s b t).sensitivity_factor = s.sensitivity_factor ∧
    (trackConsecutive s b t).is_calibrating = s.is_calibrating ∧
    (trackConsecutive s b t).last_is_speech = s.last_is_speech ∧
    (trackConsecutive s b t).last_calibration_time = s.last_calibration_time ∧
    (trackConsecutive s b t).consecutive_speech_frames =
      (if b then s.consecutive_speech_frames + 1 else 0) := by
  unfold trackConsecutive
  cases b <;> exact ⟨rfl, rfl, rfl, rfl, rfl, rfl, rfl, rfl, rfl⟩

theorem recalibrateFromRecentSilence_fields (sq : ℚ → ℚ) (s : AASState) (now : ℤ) :
    (recalibrateFromRecentSilence sq s now).1.config = s.config ∧
    (recalibrateFromRecentSilence sq s now).1.samples = s.samples ∧
    (recalibrateFromRecentSilence sq s now).1.sensitivity_factor = s.sensitivity_factor ∧
    (recalibrateFromRecentSilence sq s now).1.is_calibrating = s.is_calibrating ∧
    (recalibrateFromRecentSilence sq s now).1.last_is_speech = s.last_is_speech ∧
    (recalibrateFromRecentSilence sq s now).1.consecutive_speech_frames =
      s.consecutive_speech_frames ∧
    (recalibrateFromRecentSilence sq s now).1.consecutive_silence_frames =
      s.consecutive_silence_frames ∧
    (recalibrateFromRecentSilence sq s now).2 ≠ [AAEvent.speechStart] ∧
    AAEvent.speechStart ∉ (recalibrateFromRecentSilence sq s now).2 := by
  unfold recalibrateFromRecentSilence
  dsimp only
  split <;> exact ⟨rfl, rfl, rfl, rfl, rfl, rfl, rfl, by simp, by simp⟩

theorem floorTracking_fields (sq : ℚ → ℚ) (s : AASState) (level threshold : ℚ) :
    (floorTracking sq s level threshold).1.config = s.config ∧
    (floorTracking sq s level threshold).1.samples = s.samples ∧
    (floorTracking sq s level threshold).1.sensitivity_factor = s.sensitivity_factor ∧
    (floorTracking sq s level threshold).1.is_calibrating = s.is_calibrating ∧
    (floorTracking sq s level threshold).1.last_is_speech = s.last_is_speech ∧
    (floorTracking sq s level threshold).1.consecutive_speech_frames =
      s.consecutive_speech_frames ∧
    (floorTracking sq s level threshold).1.consecutive_silence_frames =
      s.consecutive_silence_frames ∧
    AAEvent.speechStart ∉ (floorTracking sq s level threshold).2 := by
  unfold floorTracking
  dsimp only
  split
  · split
    · split <;> exact ⟨rfl, rfl, rfl, rfl, rfl, rfl, rfl, by simp⟩
    · exact ⟨rfl, rfl, rfl, rfl, rfl, rfl, rfl, by simp⟩
  · exact ⟨rfl, rfl, rfl, rfl, rfl, rfl, rfl, by simp⟩

theorem adjustSensitivity_fields (sq : ℚ → ℚ) (s : AASState) :
    (adjustSensitivity sq s).config = s.config ∧
    (adjustSensitivity sq s).samples = s.samples ∧
    (adjustSensitivity sq s).noise_floor = s.noise_floor ∧
    (adjustSensitivity sq s).std_dev = s.std_dev ∧
    (adjustSensitivity sq s).is_calibrating = s.is_calibrating ∧
    (adjustSensitivity sq s).last_is_speech = s.last_is_speech ∧
    (adjustSensitivity sq s).consecutive_speech_frames = s.consecutive_speech_frames ∧
    (adjustSensitivity sq s).consecutive_silence_frames = s.consecutive_silence_frames := by
  unfold adjustSensitivity
  dsimp only
  split
  · split
    · exact ⟨rfl, rfl, rfl, rfl, rfl, rfl, rfl, rfl⟩
    · split
      · exact ⟨rfl, rfl, rfl, rfl, rfl, rfl, rfl, rfl⟩
      · exact ⟨rfl, rfl, rfl, rfl, rfl, rfl, rfl, rfl⟩
  · exact ⟨rfl, rfl, rfl, rfl, rfl, rfl, rfl, rfl⟩

/-- A typical post-calibration analysis state used to instantiate
hypotheses of the theorems below at concrete inputs. -/
def postCalState : AASState where
  config := defaultAASConfig
  samples := [0.01, 0.012, 0.011, 0.009, 0.013]
  noise_floor := 0.02
  std_dev := 0.01
  sensitivity_factor := 1.5
  last_calibration_time := 0
  calibration_complete := true
  is_calibrating := false
  last_is_speech := false
  consecutive_speech_frames := 0
  consecutive_silence_frames := 0
  last_speech_time := 0
  last_silence_time := 0

/-- C1: in every post-calibration state, the threshold reported by
`add_audio_sample` is exactly `noise_floor + std_dev * sensitivity_factor`
computed from the profile stored at the start of the call, and
`get_current_threshold` evaluates that exact expression on the stored
values of the state reached after the call (so the equality keeps
holding after every subsequent `add_audio_sample`). -/
theorem threshold_eq_profile_formula (sq : ℚ → ℚ) (s : AASState)
    (level : ℚ) (timestamp : ℤ) (h : s.is_calibrating = false) :
    (addAudioSample sq s level timestamp).2.1.threshold =
      s.noise_floor + s.std_dev * s.sensitivity_factor ∧
    currentThreshold (addAudioSample sq s level timestamp).1 =
      (addAudioSample sq s level timestamp).1.noise_floor +
        (addAudioSample sq s level timestamp).1.std_dev *
          (addAudioSample sq s level timestamp).1.sensitivity_factor := by
  refine ⟨?_, rfl⟩
  unfold addAudioSample
  rw [if_neg (by simp [h])]
  dsimp only
  have hthr := currentThreshold_appendSampleBounded s level
  split
  · exact hthr
  · split
    · exact hthr
    · exact hthr

/-- Witness for C1 at a concrete post-calibration state. -/
theorem threshold_eq_profile_formula_witness :
    postCalState.is_calibrating = false ∧
    ((addAudioSample ratSqrt postCalState 0.5 3).2.1.threshold =
      postCalState.noise_floor + postCalState.std_dev * postCalState.sensitivity_factor ∧
    currentThreshold (addAudioSample ratSqrt postCalState 0.5 3).1 =
      (addAudioSample ratSqrt postCalState 0.5 3).1.noise_floor +
        (addAudioSample ratSqrt postCalState 0.5 3).1.std_dev *
          (addAudioSample ratSqrt postCalState 0.5 3).1.sensitivity_factor) :=
  ⟨rfl, threshold_eq_profile_formula ratSqrt postCalState 0.5 3 rfl⟩

theorem addAudioSample_active_state (sq : ℚ → ℚ) (s : AASState) (level : ℚ)
    (timestamp : ℤ) (h : s.is_calibrating = false) :
    (addAudioSample sq s level timestamp).1.config = s.config ∧
    (addAudioSample sq s level timestamp).1.is_calibrating = false ∧
    (addAudioSample sq s level timestamp).1.consecutive_speech_frames =
      (if currentThreshold s < level then s.consecutive_speech_frames + 1 else 0) := by
  unfold addAudioSample
  rw [if_neg (by simp [h])]
  dsimp only
  rw [currentThreshold_appendSampleBounded s level]
  obtain ⟨ha1, ha2, ha3, ha4, ha5, ha6, ha7, ha8, ha9, ha10⟩ :=
    appendSampleBounded_fields s level
  obtain ⟨ht1, ht2, ht3, ht4, ht5, ht6, ht7, ht8, ht9⟩ :=
    trackConsecutive_fields (appendSampleBounded s level)
      (decide (currentThreshold s < level)) timestamp
  split
  · exact ⟨by rw [ht1, ha1], by rw [ht6, ha5, h],
      by rw [ht9, ha7]; simp only [decide_eq_true_eq]⟩
  · split
    · exact ⟨by rw [ht1, ha1], by rw [ht6, ha5, h],
        by rw [ht9, ha7]; simp only [decide_eq_true_eq]⟩
    · obtain ⟨hr1, hr2, hr3, hr4, hr5, hr6, hr7, hr8, hr9⟩ :=
        recalibrateFromRecentSilence_fields sq
          (trackConsecutive (appendSampleBounded s level)
            (decide (currentThreshold s < level)) timestamp) timestamp
      constructor
      · rw [(adjustSensitivity_fields sq _).1, (floorTracking_fields sq _ _ _).1]
        split
        · rw [hr1, ht1, ha1]
        · rw [ht1, ha1]
      constructor
      · rw [(adjustSensitivity_fields sq _).2.2.2.2.1, (floorTracking_fields sq _ _ _).2.2.2.1]
        split
        · rw [hr4, ht6, ha5, h]
        · rw [ht6, ha5, h]
      · rw [(adjustSensitivity_fields sq _).2.2.2.2.2.2.1,
          (floorTracking_fields sq _ _ _).2.2.2.2.2.1]
        split
        · rw [hr6, ht9, ha7]; simp only [decide_eq_true_eq]
        · rw [ht9, ha7]; simp only [decide_eq_true_eq]

theorem speechStart_not_emitted_low (sq : ℚ → ℚ) (s : AASState) (level : ℚ)
    (timestamp : ℤ) (h : s.is_calibrating = false)
    (hlev : level ≤ currentThreshold s)
    (hcfg : 1 ≤ s.config.consecutive_frames_threshold) :
    AAEvent.speechStart ∉ (addAudioSample sq s level timestamp).2.2 := by
  unfold addAudioSample
  rw [if_neg (by simp [h])]
  dsimp only
  rw [currentThreshold_appendSampleBounded s level]
  have hns : decide (currentThreshold s < level) = false := by
    simp only [decide_eq_false_iff_not, not_lt]
    exact hlev
  rw [hns]
  obtain ⟨ha1, ha2, ha3, ha4, ha5, ha6, ha7, ha8, ha9, ha10⟩ :=
    appendSampleBounded_fields s level
  obtain ⟨ht1, ht2, ht3, ht4, ht5, ht6, ht7, ht8, ht9⟩ :=
    trackConsecutive_fields (appendSampleBounded s level) false timestamp
  have hconf : decide ((trackConsecutive (appendSampleBounded s level) false
      timestamp).config.consecutive_frames_threshold ≤
      (trackConsecutive (appendSampleBounded s level) false
        timestamp).consecutive_speech_frames) = false := by
    simp only [decide_eq_false_iff_not, not_le, ht1, ht9, ha1, if_false, Bool.false_eq_true]
    omega
  rw [hconf]
  rw [if_neg (by simp)]
  split
  · simp
  · simp only [List.mem_append, not_or]
    constructor
    · split
      · exact (recalibrateFromRecentSilence_fields sq _ timestamp).2.2.2.2.2.2.2.2
      · simp
    · exact (floorTracking_fields sq _ _ _).2.2.2.2.2.2.2

theorem speechStart_not_emitted_zero (sq : ℚ → ℚ) (s : AASState) (level : ℚ)
    (timestamp : ℤ) (h : s.is_calibrating = false)
    (hzero : s.consecutive_speech_frames = 0)
    (hcfg : 2 ≤ s.config.consecutive_frames_threshold) :
    AAEvent.speechStart ∉ (addAudioSample sq s level timestamp).2.2 := by
  unfold addAudioSample
  rw [if_neg (by simp [h])]
  dsimp only
  obtain ⟨ha1, ha2, ha3, ha4, ha5, ha6, ha7, ha8, ha9, ha10⟩ :=
    appendSampleBounded_fields s level
  obtain ⟨ht1, ht2, ht3, ht4, ht5, ht6, ht7, ht8, ht9⟩ :=
    trackConsecutive_fields (appendSampleBounded s level)
      (decide (currentThreshold (appendSampleBounded s level) < level)) timestamp
  have hconf : decide ((trackConsecutive (appendSampleBounded s level)
      (decide (currentThreshold (appendSampleBounded s level) < level))
      timestamp).config.consecutive_frames_threshold ≤
      (trackConsecutive (appendSampleBounded s level)
        (decide (currentThreshold (appendSampleBounded s level) < level))
        timestamp).consecutive_speech_frames) = false := by
    simp only [decide_eq_false_iff_not, not_le, ht1, ht9, ha1, ha7, hzero]
    split <;> omega
  rw [hconf]
  rw [if_neg (by simp)]
  split
  · simp
  · simp only [List.mem_append, not_or]
    constructor
    · split
      · exact (recalibrateFromRecentSilence_fields sq _ timestamp).2.2.2.2.2.2.2.2
      · simp
    · exact (floorTracking_fields sq _ _ _).2.2.2.2.2.2.2

/-- C3: post-calibration, with `consecutive_frames_threshold ≥ 2`, an
isolated frame above threshold (its neighbours at or below their
respective current thresholds) never produces a `speech-start` event:
neither the call processing the isolated frame nor the following call
emits `speech-start`. -/
theorem isolated_frame_no_speech_start (sq : ℚ → ℚ) (s0 : AASState)
    (x y z : ℚ) (t1 t2 t3 : ℤ)
    (hcal : s0.is_calibrating = false)
    (hcfg : 2 ≤ s0.config.consecutive_frames_threshold)
    (hx : x ≤ currentThreshold s0)
    (hy : currentThreshold (addAudioSample sq s0 x t1).1 < y)
    (hz : z ≤ currentThreshold (addAudioSample sq (addAudioSample sq s0 x t1).1 y t2).1) :
    AAEvent.speechStart ∉ (addAudioSample sq (addAudioSample sq s0 x t1).1 y t2).2.2 ∧
    AAEvent.speechStart ∉
      (addAudioSample sq (addAudioSample sq (addAudioSample sq s0 x t1).1 y t2).1 z t3).2.2 := by
  obtain ⟨hcfg1, hcal1, hconsec1⟩ := addAudioSample_active_state sq s0 x t1 hcal
  rw [if_neg (not_lt.mpr hx)] at hconsec1
  obtain ⟨hcfg2, hcal2, _⟩ :=
    addAudioSample_active_state sq (addAudioSample sq s0 x t1).1 y t2 hcal1
  constructor
  · exact speechStart_not_emitted_zero sq _ y t2 hcal1 hconsec1 (by rw [hcfg1]; exact hcfg)
  · exact speechStart_not_emitted_low sq _ z t3 hcal2 hz
      (by rw [hcfg2, hcfg1]; omega)

/-- Witness for C3: a quiet frame, one loud frame, a quiet frame. -/
theorem isolated_frame_no_speech_start_witness :
    (postCalState.is_calibrating = false ∧
      2 ≤ postCalState.config.consecutive_frames_threshold ∧
      (0.01 : ℚ) ≤ currentThreshold postCalState ∧
      currentThreshold (addAudioSample ratSqrt postCalState 0.01 1).1 < 0.9 ∧
      (0.01 : ℚ) ≤ currentThreshold
        (addAudioSample ratSqrt (addAudioSample ratSqrt postCalState 0.01 1).1 0.9 2).1) ∧
    (AAEvent.speechStart ∉
      (addAudioSample ratSqrt (addAudioSample ratSqrt postCalState 0.01 1).1 0.9 2).2.2 ∧
    AAEvent.speechStart ∉
      (addAudioSample ratSqrt
        (addAudioSample ratSqrt (addAudioSample ratSqrt postCalState 0.01 1).1 0.9 2).1
        0.01 3).2.2) :=
  ⟨⟨rfl, by decide, by decide, by decide, by decide⟩,
   isolated_frame_no_speech_start ratSqrt postCalState 0.01 0.9 0.01 1 2 3
     rfl (by decide) (by decide) (by decide) (by decide)⟩

/-- C2: when the calibration duration elapses with fewer than 5 samples
collected (the appended current one included), completing calibration
falls back to `noise_floor = 0.02`, `std_dev = 0.01` exactly, and still
transitions out of the calibrating state with `calibration_complete`
set. -/
theorem calibration_fallback_defaults (sq : ℚ → ℚ) (s : AASState)
    (level : ℚ) (timestamp : ℤ) (hc : s.is_calibrating = true)
    (hlen : s.samples.length + 1 < 5)
    (helapsed : s.config.calibration_duration_ms ≤ timestamp - s.last_calibration_time) :
    (addAudioSample sq s level timestamp).1.noise_floor = 0.02 ∧
    (addAudioSample sq s level timestamp).1.std_dev = 0.01 ∧
    (addAudioSample sq s level timestamp).1.is_calibrating = false ∧
    (addAudioSample sq s level timestamp).1.calibration_complete = true := by
  simp only [addAudioSample, hc, if_true, completeCalibration]
  rw [if_pos helapsed]
  have h4 : ¬ (4 ≤ s.samples.length) := by omega
  simp [h4]

/-- Witness for C2: a fresh service fed one sample after the window. -/
theorem calibration_fallback_defaults_witness :
    ((AASState.init defaultAASConfig 0).is_calibrating = true ∧
      (AASState.init defaultAASConfig 0).samples.length + 1 < 5 ∧
      (AASState.init defaultAASConfig 0).config.calibration_duration_ms ≤
        2500 - (AASState.init defaultAASConfig 0).last_calibration_time) ∧
    ((addAudioSample ratSqrt (AASState.init defaultAASConfig 0) 0.3 2500).1.noise_floor = 0.02 ∧
     (addAudioSample ratSqrt (AASState.init defaultAASConfig 0) 0.3 2500).1.std_dev = 0.01 ∧
     (addAudioSample ratSqrt (AASState.init defaultAASConfig 0) 0.3 2500).1.is_calibrating = false ∧
     (addAudioSample ratSqrt (AASState.init defaultAASConfig 0) 0.3 2500).1.calibration_complete = true) :=
  ⟨⟨rfl, by decide, by decide⟩,
   calibration_fallback_defaults ratSqrt (AASState.init defaultAASConfig 0) 0.3 2500
     rfl (by decide) (by decide)⟩

/-- Post-calibration state exhibiting the sensitivity-decrease guard:
ten identical recent samples (coefficient of variation `0`) and the
sensitivity factor sitting exactly at `1.3` (reachable from the default
`1.5` by four `0.05` decreases). -/
def sensAtGuard : AASState where
  config := defaultAASConfig
  samples := List.replicate 9 0.5
  noise_floor := 0.6
  std_dev := 0
  sensitivity_factor := 1.3
  last_calibration_time := 0
  calibration_complete := true
  is_calibrating := false
  last_is_speech := false
  consecutive_speech_frames := 0
  consecutive_silence_frames := 0
  last_speech_time := 0
  last_silence_time := 0

/-- Counterexample to C5: a post-calibration `add_audio_sample` call
with 10 samples in history whose coefficient of variation is below 0.2,
yet the sensitivity factor stays at `1.3` instead of decreasing to
`max 1.2 (1.3 - 0.05) = 1.25`, because of the `> 1.3` guard on line 268. -/
theorem sensitivity_decrease_guard_counterexample :
    sensAtGuard.is_calibrating = false ∧
    (addAudioSample ratSqrt sensAtGuard 0.5 5).1.samples.length = 10 ∧
    variationCoeff ratSqrt (lastN 10 (addAudioSample ratSqrt sensAtGuard 0.5 5).1.samples) < 0.2 ∧
    (addAudioSample ratSqrt sensAtGuard 0.5 5).1.sensitivity_factor = 1.3 ∧
    ¬ (addAudioSample ratSqrt sensAtGuard 0.5 5).1.sensitivity_factor =
        max 1.2 (sensAtGuard.sensitivity_factor - 0.05) := by
  refine ⟨rfl, by decide, by decide, by decide, by decide⟩

/-- C5 (amended): whenever `_adjust_sensitivity_factor` runs with at
least 10 samples in history (it runs on every post-calibration
`add_audio_sample` call that does not return early on a speech-start or
speech-end transition), the coefficient of variation over the last 10
samples is computed; above 0.5 the sensitivity factor increases by 0.05
clamped to at most 2.0, and below 0.2 it decreases by 0.05 clamped to at
least 1.2 only when the current factor exceeds 1.3 — at or below 1.3 it
is left unchanged. -/
theorem sensitivity_adjustment_amended (sq : ℚ → ℚ) (s : AASState)
    (hlen : 10 ≤ s.samples.length) :
    ((0.5 : ℚ) < variationCoeff sq (lastN 10 s.samples) →
      (adjustSensitivity sq s).sensitivity_factor =
        min 2.0 (s.sensitivity_factor + 0.05)) ∧
    (variationCoeff sq (lastN 10 s.samples) < 0.2 ∧ 1.3 < s.sensitivity_factor →
      (adjustSensitivity sq s).sensitivity_factor =
        max 1.2 (s.sensitivity_factor - 0.05)) ∧
    (variationCoeff sq (lastN 10 s.samples) < 0.2 ∧ s.sensitivity_factor ≤ 1.3 →
      (adjustSensitivity sq s).sensitivity_factor = s.sensitivity_factor) := by
  unfold adjustSensitivity
  rw [if_pos hlen]
  dsimp only
  refine ⟨?_, ?_, ?_⟩
  · intro hcv
    rw [if_pos hcv]
  · rintro ⟨hcv, hguard⟩
    rw [if_neg (by exact fun hgt => absurd hcv (by linarith)), if_pos ⟨hcv, hguard⟩]
  · rintro ⟨hcv, hguard⟩
    rw [if_neg (by exact fun hgt => absurd hcv (by linarith)),
      if_neg (by exact fun hand => absurd hguard (not_le.mpr hand.2))]

/-- Witness for C5 (amended) in the increase branch: ten highly varying
samples push the factor up by 0.05 toward 2.0. -/
theorem sensitivity_adjustment_amended_witness :
    (10 ≤ ([0, 1, 0, 1, 0, 1, 0, 1, 0, 1] : List ℚ).length ∧
      (0.5 : ℚ) < variationCoeff ratSqrt
        (lastN 10 ([0, 1, 0, 1, 0, 1, 0, 1, 0, 1] : List ℚ))) ∧
    (adjustSensitivity ratSqrt
        { sensAtGuard with samples := [0, 1, 0, 1, 0, 1, 0, 1, 0, 1],
                           sensitivity_factor := 1.5 }).sensitivity_factor =
      min 2.0 ((1.5 : ℚ) + 0.05) :=
  ⟨⟨by decide, by decide⟩,
   (sensitivity_adjustment_amended ratSqrt
      { sensAtGuard with samples := [0, 1, 0, 1, 0, 1, 0, 1, 0, 1],
                         sensitivity_factor := 1.5 } (by decide)).1 (by decide)⟩

/-- The spec invariant of the noise profile: nonnegative standard
deviation and sensitivity factor within `[1.2, 2.0]`. -/
def SensInvariant (s : AASState) : Prop :=
  0 ≤ s.std_dev ∧ 1.2 ≤ s.sensitivity_factor ∧ s.sensitivity_factor ≤ 2.0

theorem completeCalibration_invariant (sq : ℚ → ℚ) (hsq : ∀ q, 0 ≤ sq q)
    (s : AASState) :
    (completeCalibration sq s).1.sensitivity_factor = s.sensitivity_factor ∧
    0 ≤ (completeCalibration sq s).1.std_dev := by
  unfold completeCalibration
  dsimp only
  split
  · refine ⟨rfl, ?_⟩
    dsimp only
    split
    · exact hsq _
    · norm_num
  · exact ⟨rfl, by norm_num⟩

theorem recalibrateFromRecentSilence_std_nonneg (sq : ℚ → ℚ) (hsq : ∀ q, 0 ≤ sq q)
    (s : AASState) (now : ℤ) (h : 0 ≤ s.std_dev) :
    0 ≤ (recalibrateFromRecentSilence sq s now).1.std_dev := by
  unfold recalibrateFromRecentSilence
  dsimp only
  split
  · dsimp only
    split
    · exact hsq _
    · norm_num
  · exact h

theorem floorTracking_std_nonneg (sq : ℚ → ℚ) (hsq : ∀ q, 0 ≤ sq q)
    (s : AASState) (level threshold : ℚ) (h : 0 ≤ s.std_dev) :
    0 ≤ (floorTracking sq s level threshold).1.std_dev := by
  unfold floorTracking
  dsimp only
  split
  · split
    · split
      · dsimp only
        split
        · exact hsq _
        · exact h
      · exact h
    · exact h
  · exact h

theorem adjustSensitivity_sens_bounds (sq : ℚ → ℚ) (s : AASState)
    (h1 : 1.2 ≤ s.sensitivity_factor) (h2 : s.sensitivity_factor ≤ 2.0) :
    1.2 ≤ (adjustSensitivity sq s).sensitivity_factor ∧
    (adjustSensitivity sq s).sensitivity_factor ≤ 2.0 := by
  unfold adjustSensitivity
  dsimp only
  split
  · split
    · constructor
      · refine le_min (by norm_num) (by linarith)
      · exact min_le_left _ _
    · split
      · constructor
        · exact le_max_left _ _
        · refine max_le (by norm_num) (by linarith)
      · exact ⟨h1, h2⟩
  · exact ⟨h1, h2⟩

theorem addAudioSample_invariant (sq : ℚ → ℚ) (hsq : ∀ q, 0 ≤ sq q)
    (s : AASState) (level : ℚ) (timestamp : ℤ) (hinv : SensInvariant s) :
    SensInvariant (addAudioSample sq s level timestamp).1 := by
  obtain ⟨h1, h2, h3⟩ := hinv
  unfold addAudioSample
  split
  · -- calibrating branch
    dsimp only
    split
    · obtain ⟨hc1, hc2⟩ := completeCalibration_invariant sq hsq _
      exact ⟨hc2, by rw [hc1]; exact h2, by rw [hc1]; exact h3⟩
    · exact ⟨h1, h2, h3⟩
  · -- active branch
    dsimp only
    obtain ⟨ha1, ha2, ha3, ha4, ha5, ha6, ha7, ha8, ha9, ha10⟩ :=
      appendSampleBounded_fields s level
    obtain ⟨ht1, ht2, ht3, ht4, ht5, ht6, ht7, ht8, ht9⟩ :=
      trackConsecutive_fields (appendSampleBounded s level)
        (decide (currentThreshold (appendSampleBounded s level) < level)) timestamp
    have hstd2 : 0 ≤ (trackConsecutive (appendSampleBounded s level)
        (decide (currentThreshold (appendSampleBounded s level) < level))
        timestamp).std_dev := by rw [ht4, ha3]; exact h1
    have hsens2 : (trackConsecutive (appendSampleBounded s level)
        (decide (currentThreshold (appendSampleBounded s level) < level))
        timestamp).sensitivity_factor = s.sensitivity_factor := by rw [ht5, ha4]
    split
    · exact ⟨hstd2, by rw [hsens2]; exact h2, by rw [hsens2]; exact h3⟩
    · split
      · exact ⟨hstd2, by rw [hsens2]; exact h2, by rw [hsens2]; exact h3⟩
      · have hrstd : 0 ≤ (if
            ¬decide (currentThreshold (appendSampleBounded s level) < level) = true ∧
              (trackConsecutive (appendSampleBounded s level)
                (decide (currentThreshold (appendSampleBounded s level) < level))
                timestamp).config.silence_duration_for_recal_ms <
                timestamp - (trackConsecutive (appendSampleBounded s level)
                  (decide (currentThreshold (appendSampleBounded s level) < level))
                  timestamp).last_silence_time ∧
              (trackConsecutive (appendSampleBounded s level)
                (decide (currentThreshold (appendSampleBounded s level) < level))
                timestamp).config.recalibration_interval_ms <
                timestamp - (trackConsecutive (appendSampleBounded s level)
                  (decide (currentThreshold (appendSampleBounded s level) < level))
                  timestamp).last_calibration_time then
            recalibrateFromRecentSilence sq (trackConsecutive (appendSampleBounded s level)
              (decide (currentThreshold (appendSampleBounded s level) < level)) timestamp)
              timestamp
          else (trackConsecutive (appendSampleBounded s level)
            (decide (currentThreshold (appendSampleBounded s level) < level)) timestamp,
            [])).1.std_dev := by
          split
          · exact recalibrateFromRecentSilence_std_nonneg sq hsq _ _ hstd2
          · exact hstd2
        have hrsens : (if
            ¬decide (currentThreshold (appendSampleBounded s level) < level) = true ∧
              (trackConsecutive (appendSampleBounded s level)
                (decide (currentThreshold (appendSampleBounded s level) < level))
                timestamp).config.silence_duration_for_recal_ms <
                timestamp - (trackConsecutive (appendSampleBounded s level)
                  (decide (currentThreshold (appendSampleBounded s level) < level))
                  timestamp).last_silence_time ∧
              (trackConsecutive (appendSampleBounded s level)
                (decide (currentThreshold (appendSampleBounded s level) < level))
                timestamp).config.recalibration_interval_ms <
                timestamp - (trackConsecutive (appendSampleBounded s level)
                  (decide (currentThreshold (appendSampleBounded s level) < level))
                  timestamp).last_calibration_time then
            recalibrateFromRecentSilence sq (trackConsecutive (appendSampleBounded s level)
              (decide (currentThreshold (appendSampleBounded s level) < level)) timestamp)
              timestamp
          else (trackConsecutive (appendSampleBounded s level)
            (decide (currentThreshold (appendSampleBounded s level) < level)) timestamp,
            [])).1.sensitivity_factor = s.sensitivity_factor := by
          split
          · rw [(recalibrateFromRecentSilence_fields sq _ _).2.2.1, hsens2]
          · exact hsens2
        refine ⟨?_, ?_, ?_⟩
        · rw [(adjustSensitivity_fields sq _).2.2.2.1]
          exact floorTracking_std_nonneg sq hsq _ _ _ hrstd
        · refine (adjustSensitivity_sens_bounds sq _ ?_ ?_).1 <;>
            rw [(floorTracking_fields sq _ _ _).2.2.1, hrsens] <;> assumption
        · refine (adjustSensitivity_sens_bounds sq _ ?_ ?_).2 <;>
            rw [(floorTracking_fields sq _ _ _).2.2.1, hrsens] <;> assumption

theorem applyOp_invariant (sq : ℚ → ℚ) (hsq : ∀ q, 0 ≤ sq q)
    (s : AASState) (op : AASOp) (hinv : SensInvariant s) :
    SensInvariant (applyOp sq s op) := by
  cases op with
  | sample l t => exact addAudioSample_invariant sq hsq s l t hinv
  | recal now => exact hinv
  | cfg p => exact hinv

/-- C6: starting from the default configuration, the invariant
`std_dev ≥ 0 ∧ sensitivity_factor ∈ [1.2, 2.0]` holds after every
sequence of `add_audio_sample`, `force_recalibration` and
`update_config` operations, for any square-root function that is
nonnegative (as the real one is). -/
theorem default_invariant_all_ops (sq : ℚ → ℚ) (hsq : ∀ q, 0 ≤ sq q)
    (t0 : ℤ) (ops : List AASOp) :
    SensInvariant (runOps sq (AASState.init defaultAASConfig t0) ops) := by
  have hstep : ∀ (l : List AASOp) (s : AASState), SensInvariant s →
      SensInvariant (runOps sq s l) := by
    intro l
    induction l with
    | nil => intro s hs; exact hs
    | cons op rest ih =>
      intro s hs
      exact ih _ (applyOp_invariant sq hsq s op hs)
  refine hstep ops _ ⟨le_refl 0, by norm_num [AASState.init, startCalibration, defaultAASConfig], by norm_num [AASState.init, startCalibration, defaultAASConfig]⟩

theorem ratSqrt_nonneg (q : ℚ) : 0 ≤ ratSqrt q := by
  unfold ratSqrt
  positivity

/-- Witness for C6 with `ratSqrt` (which is nonnegative) and a small
mixed operation sequence. -/
theorem default_invariant_all_ops_witness :
    SensInvariant (runOps ratSqrt (AASState.init defaultAASConfig 0)
      [AASOp.sample 0.3 100, AASOp.recal 200, AASOp.cfg {}, AASOp.sample 0.4 5000]) :=
  default_invariant_all_ops ratSqrt ratSqrt_nonneg 0
    [AASOp.sample 0.3 100, AASOp.recal 200, AASOp.cfg {}, AASOp.sample 0.4 5000]

/-- C4: every `add_audio_sample` call made while calibrating (the one
completing calibration included) returns `is_speech = False` and
`threshold = 0`. -/
theorem calibrating_returns_non_speech (sq : ℚ → ℚ) (s : AASState)
    (level : ℚ) (timestamp : ℤ) (hc : s.is_calibrating = true) :
    (addAudioSample sq s level timestamp).2.1.is_speech = false ∧
    (addAudioSample sq s level timestamp).2.1.threshold = 0 := by
  simp [addAudioSample, hc]

/-- Witness for C4 on a call that also completes calibration. -/
theorem calibrating_returns_non_speech_witness :
    (AASState.init defaultAASConfig 0).is_calibrating = true ∧
    ((addAudioSample ratSqrt (AASState.init defaultAASConfig 0) 0.3 2500).2.1.is_speech = false ∧
     (addAudioSample ratSqrt (AASState.init defaultAASConfig 0) 0.3 2500).2.1.threshold = 0) :=
  ⟨rfl, calibrating_returns_non_speech ratSqrt (AASState.init defaultAASConfig 0) 0.3 2500 rfl⟩

/-! Socket-layer theorems. -/

theorem getLast_of_concat (l : List AudioFrame) (a fr : AudioFrame)
    (h : (l ++ [a]).getLast? = some fr) : fr = a := by
  rw [List.getLast?_concat] at h
  exact (Option.some.inj h).symm

theorem getLast_of_concat_tail (l : List AudioFrame) (a fr : AudioFrame)
    (h : (l ++ [a]).tail.getLast? = some fr) : fr = a := by
  cases l with
  | nil => simp at h
  | cons x xs =>
    rw [List.cons_append, List.tail_cons, List.getLast?_concat] at h
    exact (Option.some.inj h).symm

theorem frameVerdicts_ensemble (sq : ℚ → ℚ) (wv : List ℤ → ℕ → Bool)
    (s : SessionState) (frame : List ℤ) (timestamp : ℤ) :
    (s.config.use_webrtc_vad = true ∧ s.config.use_rms_vad = true →
      (frameVerdicts sq wv s frame timestamp).is_speech_ensemble = decide ((0.5 : ℚ) <
        b2q (frameVerdicts sq wv s frame timestamp).is_speech_webrtc * s.config.webrtc_weight +
          b2q (frameVerdicts sq wv s frame timestamp).is_speech_rms * s.config.rms_weight)) ∧
    (s.config.use_rms_vad = true ∧ s.config.use_webrtc_vad = false →
      (frameVerdicts sq wv s frame timestamp).is_speech_ensemble =
        (frameVerdicts sq wv s frame timestamp).is_speech_rms) ∧
    (s.config.use_webrtc_vad = true ∧ s.config.use_rms_vad = false →
      (frameVerdicts sq wv s frame timestamp).is_speech_ensemble =
        (frameVerdicts sq wv s frame timestamp).is_speech_webrtc) := by
  unfold frameVerdicts
  dsimp only
  refine ⟨fun ⟨hA, hB⟩ => ?_, fun ⟨hA, hB⟩ => ?_, fun ⟨hA, hB⟩ => ?_⟩ <;>
    simp [hA, hB]

theorem processFrame_getLast (sq : ℚ → ℚ) (wv : List ℤ → ℕ → Bool)
    (s : SessionState) (frame : List ℤ) (timestamp : ℤ) (fr : AudioFrame)
    (hlast : (processFrame sq wv s frame timestamp).1.frames.getLast? = some fr) :
    fr = frameVerdicts sq wv s frame timestamp := by
  unfold processFrame at hlast
  dsimp only at hlast
  split at hlast
  · split at hlast
    · exact getLast_of_concat_tail _ _ _ hlast
    · exact getLast_of_concat _ _ _ hlast
  · split at hlast
    · exact getLast_of_concat_tail _ _ _ hlast
    · exact getLast_of_concat _ _ _ hlast

/-- C7: for every frame record appended by `_process_frame`, when both
detectors are enabled its ensemble verdict is the weighted score
comparison against 0.5, and when exactly one detector is enabled it is
that detector's verdict directly. -/
theorem ensemble_verdict_formula (sq : ℚ → ℚ) (wv : List ℤ → ℕ → Bool)
    (s : SessionState) (frame : List ℤ) (timestamp : ℤ) (fr : AudioFrame)
    (hlast : (processFrame sq wv s frame timestamp).1.frames.getLast? = some fr) :
    (s.config.use_webrtc_vad = true ∧ s.config.use_rms_vad = true →
      fr.is_speech_ensemble = decide ((0.5 : ℚ) <
        b2q fr.is_speech_webrtc * s.config.webrtc_weight +
          b2q fr.is_speech_rms * s.config.rms_weight)) ∧
    (s.config.use_rms_vad = true ∧ s.config.use_webrtc_vad = false →
      fr.is_speech_ensemble = fr.is_speech_rms) ∧
    (s.config.use_webrtc_vad = true ∧ s.config.use_rms_vad = false →
      fr.is_speech_ensemble = fr.is_speech_webrtc) := by
  have hfr := processFrame_getLast sq wv s frame timestamp fr hlast
  subst hfr
  exact frameVerdicts_ensemble sq wv s frame timestamp

/-- A freshly initialized session with the default configuration. -/
def freshSession : SessionState := SessionState.init "a" defaultSVConfig 0

/-- Witness for C7 on a fresh default session (both detectors
enabled) processing one frame. -/
theorem ensemble_verdict_formula_witness :
    ((processFrame ratSqrt (fun _ _ => true) freshSession [0] 0).1.frames.getLast? =
      some ⟨[0], 0, 0, false, false, false⟩ ∧
      freshSession.config.use_webrtc_vad = true ∧
      freshSession.config.use_rms_vad = true) ∧
    (AudioFrame.is_speech_ensemble ⟨[0], 0, 0, false, false, false⟩ =
      decide ((0.5 : ℚ) <
        b2q (AudioFrame.is_speech_webrtc ⟨[0], 0, 0, false, false, false⟩) *
            freshSession.config.webrtc_weight +
          b2q (AudioFrame.is_speech_rms ⟨[0], 0, 0, false, false, false⟩) *
            freshSession.config.rms_weight)) :=
  ⟨⟨by decide, rfl, rfl⟩,
   (ensemble_verdict_formula ratSqrt (fun _ _ => true) freshSession [0] 0
      ⟨[0], 0, 0, false, false, false⟩ (by decide)).1 ⟨rfl, rfl⟩⟩

theorem init_webrtc_consistent (sid : String) (cfg : SVConfig) (now : ℤ) :
    (SessionState.init sid cfg now).has_webrtc_vad =
      (SessionState.init sid cfg now).config.use_webrtc_vad := rfl

theorem updateVadConfig_webrtc_consistent (s : SessionState) (p : SVConfigPatch)
    (h : s.has_webrtc_vad = s.config.use_webrtc_vad) :
    (updateVadConfig s p).has_webrtc_vad =
      (updateVadConfig s p).config.use_webrtc_vad := by
  unfold updateVadConfig
  dsimp only
  split
  · rfl
  · rename_i hne
    rw [not_or, not_ne_iff, not_ne_iff] at hne
    rw [h, hne.1]

/-- C10: in a session whose configuration disables both detectors (in
which case the code also holds no WebRTC detector instance), every
processed frame gets ensemble verdict `False` and the `speech_frames`
counter does not increase. -/
theorem disabled_detectors_never_speech (sq : ℚ → ℚ) (wv : List ℤ → ℕ → Bool)
    (s : SessionState) (frame : List ℤ) (timestamp : ℤ)
    (h1 : s.config.use_rms_vad = false) (h2 : s.config.use_webrtc_vad = false)
    (h3 : s.has_webrtc_vad = false) :
    (processFrame sq wv s frame timestamp).2.is_speech = false ∧
    (processFrame sq wv s frame timestamp).1.speech_frames = s.speech_frames := by
  have hens : (frameVerdicts sq wv s frame timestamp).is_speech_ensemble = false := by
    unfold frameVerdicts
    dsimp only
    simp [h1, h2, h3]
  unfold processFrame
  dsimp only
  simp only [hens, Bool.false_eq_true, if_false]
  constructor
  · trivial
  · split <;> rfl

/-- Witness for C10: a session initialized with both detectors
disabled. -/
theorem disabled_detectors_never_speech_witness :
    ((SessionState.init "a"
        { defaultSVConfig with use_rms_vad := false, use_webrtc_vad := false }
        0).config.use_rms_vad = false ∧
      (SessionState.init "a"
        { defaultSVConfig with use_rms_vad := false, use_webrtc_vad := false }
        0).config.use_webrtc_vad = false ∧
      (SessionState.init "a"
        { defaultSVConfig with use_rms_vad := false, use_webrtc_vad := false }
        0).has_webrtc_vad = false) ∧
    ((processFrame ratSqrt (fun _ _ => true)
        (SessionState.init "a"
          { defaultSVConfig with use_rms_vad := false, use_webrtc_vad := false } 0)
        [0] 0).2.is_speech = false ∧
      (processFrame ratSqrt (fun _ _ => true)
        (SessionState.init "a"
          { defaultSVConfig with use_rms_vad := false, use_webrtc_vad := false } 0)
        [0] 0).1.speech_frames =
        (SessionState.init "a"
          { defaultSVConfig with use_rms_vad := false, use_webrtc_vad := false }
          0).speech_frames) :=
  ⟨⟨rfl, rfl, rfl⟩,
   disabled_detectors_never_speech ratSqrt (fun _ _ => true) _ [0] 0 rfl rfl rfl⟩

/-- Counterexample to C8 as stated: on a decode failure the session's
`last_activity` does change, because `update_activity()` runs before
the decode attempt. -/
theorem decode_error_counterexample :
    (processAudioChunk ratSqrt (fun _ _ => false) (fun _ => none)
      freshSession "bad" 5).2 = ChunkResult.err ∧
    ¬ (processAudioChunk ratSqrt (fun _ _ => false) (fun _ => none)
        freshSession "bad" 5).1.last_activity = freshSession.last_activity := by
  exact ⟨rfl, by decide⟩

/-- C8 (amended): on an audio payload whose base64 decoding fails,
`process_audio_chunk` returns a structured error result and leaves the
whole session state unchanged except `last_activity`, which is
refreshed to the call time before the decode attempt (so `is_speaking`,
frame history, `total_frames`, `speech_frames` and the noise profile
are all untouched). -/
theorem decode_error_state_amended (sq : ℚ → ℚ) (wv : List ℤ → ℕ → Bool)
    (dec : String → Option (List ℤ)) (s : SessionState) (payload : String)
    (now : ℤ) (h : dec payload = none) :
    processAudioChunk sq wv dec s payload now =
      ({ s with last_activity := now }, ChunkResult.err) := by
  unfold processAudioChunk
  rw [h]

/-- Witness for C8 (amended) at a concrete failing decoder. -/
theorem decode_error_state_amended_witness :
    ((fun _ : String => (none : Option (List ℤ))) "bad" = none) ∧
    processAudioChunk ratSqrt (fun _ _ => false) (fun _ => none)
        freshSession "bad" 5 =
      ({ freshSession with last_activity := 5 }, ChunkResult.err) :=
  ⟨rfl, decode_error_state_amended ratSqrt (fun _ _ => false) (fun _ => none)
    freshSession "bad" 5 rfl⟩

/-- C9: a config update naming a session id unknown to the registry
yields the `SessionNotFound` error, creates no session and leaves the
registry (hence its session count) unchanged, while the lazy-creation
path used by `process`/`init` (`get_or_create_session`) does register a
session for an unknown id. -/
theorem update_config_unknown_session (r : Registry) (sid : String)
    (p : SVConfigPatch) (cfg : SVConfig) (now : ℤ)
    (h : lookupSession r sid = none) :
    handleUpdateVadConfig r (some sid) (some p) =
      (r, CfgUpdateResult.sessionNotFound) ∧
    sessionCount (handleUpdateVadConfig r (some sid) (some p)).1 = sessionCount r ∧
    lookupSession (handleUpdateVadConfig r (some sid) (some p)).1 sid = none ∧
    lookupSession (getOrCreateSession r sid cfg now).1 sid =
      some (SessionState.init sid cfg now) := by
  have hmain : handleUpdateVadConfig r (some sid) (some p) =
      (r, CfgUpdateResult.sessionNotFound) := by
    unfold handleUpdateVadConfig
    dsimp only
    rw [h]
  have hfind : List.find? (fun q => q.1 == sid) r = none := by
    unfold lookupSession at h
    exact Option.map_eq_none'.mp h
  refine ⟨hmain, by rw [hmain], by rw [hmain]; exact h, ?_⟩
  unfold getOrCreateSession
  rw [h]
  unfold lookupSession
  dsimp only
  rw [List.find?_append, hfind]
  simp [List.find?]

/-- Witness for C9 on the empty registry. -/
theorem update_config_unknown_session_witness :
    (lookupSession ([] : Registry) "s1" = none) ∧
    (handleUpdateVadConfig ([] : Registry) (some "s1") (some {}) =
      (([] : Registry), CfgUpdateResult.sessionNotFound) ∧
    sessionCount (handleUpdateVadConfig ([] : Registry) (some "s1") (some {})).1 =
      sessionCount ([] : Registry) ∧
    lookupSession (handleUpdateVadConfig ([] : Registry) (some "s1") (some {})).1 "s1" =
      none ∧
    lookupSession (getOrCreateSession ([] : Registry) "s1" defaultSVConfig 0).1 "s1" =
      some (SessionState.init "s1" defaultSVConfig 0)) :=
  ⟨rfl, update_config_unknown_session [] "s1" {} defaultSVConfig 0 rfl⟩

end StoicVAD
